import Mathlib

/-!
Verification development for the LokSeva-Connect backend (src/index.js, V2.3
handlers).  The Express handlers are shallowly embedded as pure Lean
functions: the MongoDB collections become lists of records, the external
collaborators (embedding client, vector index, generation client, JSON
parser of the runtime) become explicit function parameters, and each handler
returns its HTTP outcome together with the updated stores and call counters.
-/

namespace LokSeva

/-- JavaScript truthiness of an optional string field (`undefined` and the
empty string are falsy, every other string is truthy). -/
def strTruthy : Option String → Bool
  | some s => s ≠ ""
  | none => false

/-- JavaScript truthiness of an optional numeric field (`undefined` and `0`
are falsy). -/
def intTruthy : Option Int → Bool
  | some n => n ≠ 0
  | none => false

/-- String interpolation of a possibly-undefined string (`${x}` renders
`undefined` when the field is absent). -/
def jsStr : Option String → String
  | some s => s
  | none => "undefined"

/-- String interpolation of a possibly-undefined number. -/
def jsInt : Option Int → String
  | some n => toString n
  | none => "undefined"

/-- `x || d` for an optional string and a string default. -/
def jsOrStr (v : Option String) (d : String) : String :=
  if strTruthy v then jsStr v else d

/-- `newVal || old` on optional string fields, as used by the profile
update (`user.name = name || user.name`): a truthy new value overwrites,
otherwise the old value is kept. -/
def orField (newVal old : Option String) : Option String :=
  if strTruthy newVal then newVal else old

/-- `newVal || old` on the numeric `age` field. -/
def orAge (newVal old : Option Int) : Option Int :=
  if intTruthy newVal then newVal else old

/-- A document of the `User` collection (the Profile Store).  `email` is
required and unique; every other field is optional. -/
structure User where
  email : String
  name : Option String
  profilePic : Option String
  phone : Option String
  age : Option Int
  address : Option String
  medicalHistory : Option String
  deriving Repr, DecidableEq

/-- `User.findOne({ email })`: the first stored record with that email. -/
def findOne (store : List User) (email : String) : Option User :=
  store.find? (fun u => u.email = email)

/-- The body of `POST /api/user/profile`; absent JSON fields are `none`. -/
structure ProfileReq where
  email : Option String
  name : Option String
  profilePic : Option String
  phone : Option String
  age : Option Int
  address : Option String
  medicalHistory : Option String
  deriving Repr, DecidableEq

/-- The update branch of the profile handler: every provided (truthy) field
overwrites, every omitted or empty field keeps the stored value. -/
def updateUser (u : User) (req : ProfileReq) : User :=
  { u with
    name := orField req.name u.name
    profilePic := orField req.profilePic u.profilePic
    phone := orField req.phone u.phone
    age := orAge req.age u.age
    address := orField req.address u.address
    medicalHistory := orField req.medicalHistory u.medicalHistory }

/-- The create branch: `new User({ email, name, ... })` stores the submitted
fields as they are. -/
def mkUser (em : String) (req : ProfileReq) : User :=
  { email := em
    name := req.name
    profilePic := req.profilePic
    phone := req.phone
    age := req.age
    address := req.address
    medicalHistory := req.medicalHistory }

/-- `user.save()` on a document obtained from `findOne`: the first stored
record with this email is replaced by its updated version. -/
def saveFirst : List User → String → ProfileReq → List User
  | [], _, _ => []
  | u :: rest, em, req =>
    if u.email = em then updateUser u req :: rest
    else u :: saveFirst rest em req

/-- Outcome of `POST /api/user/profile`. -/
inductive ProfileOutcome where
  | ok (message : String) (user : User)
  | badRequest (error : String)
  deriving Repr, DecidableEq

/-- HTTP status of a profile outcome. -/
def ProfileOutcome.status : ProfileOutcome → Nat
  | .ok _ _ => 200
  | .badRequest _ => 400

/-- The `POST /api/user/profile` handler: reject a missing or empty email,
otherwise upsert by email (update the found record field-by-field with
`||`, or insert a new record). -/
def profileHandler (store : List User) (req : ProfileReq) :
    ProfileOutcome × List User :=
  match req.email with
  | none => (.badRequest "Email is required", store)
  | some em =>
    if em = "" then (.badRequest "Email is required", store)
    else
      match findOne store em with
      | some u =>
          (.ok "Profile saved successfully" (updateUser u req),
           saveFirst store em req)
      | none =>
          (.ok "Profile saved successfully" (mkUser em req),
           store ++ [mkUser em req])

/-- Number of stored profile records carrying a given email. -/
def countEmail (store : List User) (em : String) : Nat :=
  (store.filter (fun u => u.email = em)).length

/-- One message of a conversation (`sender`, `text`, default timestamp). -/
structure Msg where
  sender : String
  text : String
  timestamp : Nat
  deriving Repr, DecidableEq

/-- A document of the `Conversation` collection. -/
structure Conversation where
  id : String
  user_email : String
  title : Option String
  createdAt : Nat
  messages : List Msg
  deriving Repr, DecidableEq

/-- `Conversation.findById(conversationId)`. -/
def findById (convs : List Conversation) (cid : String) : Option Conversation :=
  convs.find? (fun c => c.id = cid)

/-- Left-to-right, non-overlapping replacement of a character pattern, the
behaviour of the global `String.replace` used on the generated output. -/
def replaceSub (pat repl : List Char) : List Char → List Char
  | [] => []
  | c :: cs =>
    if h : pat ≠ [] ∧ pat.isPrefixOf (c :: cs) then
      repl ++ replaceSub pat repl (List.drop pat.length (c :: cs))
    else
      c :: replaceSub pat repl cs
termination_by l => l.length
decreasing_by
  · have hp : 0 < pat.length := List.length_pos.mpr h.1
    have hle : pat.length ≤ (c :: cs).length :=
      (List.isPrefixOf_iff_prefix.mp h.2).length_le
    simp only [List.length_drop, List.length_cons] at *
    omega
  · simp [Nat.lt_succ_self]

/-- `s.replace(pat, repl)` with a global regex of a literal pattern. -/
def jsReplaceAll (s pat repl : String) : String :=
  String.mk (replaceSub pat.data repl.data s.data)

/-- `text().replace(/```json/g, '').replace(/```/g, '').trim()` — the
code-fence stripping applied to every generated output before parsing. -/
def cleanGenOutput (s : String) : String :=
  (jsReplaceAll (jsReplaceAll s "```json" "") "```" "").trim

/-- `.replace(/['"\n]/g, '').substring(0, 50).trim()` applied to the
generated conversation title. -/
def cleanTitle (s : String) : String :=
  (String.mk ((s.data.filter
    (fun c => !(c == Char.ofNat 39 || c == Char.ofNat 34 || c == Char.ofNat 10))).take 50)).trim

/-- `chat.messages.slice(-30)`: the most recent 30 messages (all of them
when fewer exist), in stored order. -/
def recentMessages (chat : Conversation) : List Msg :=
  chat.messages.drop (chat.messages.length - 30)

/-- `` `${m.sender.toUpperCase()}: ${m.text}` `` for one transcript line. -/
def renderMsg (m : Msg) : String :=
  m.sender.toUpper ++ ": " ++ m.text

/-- The transcript string built for the prompt: empty without a (truthy)
conversation reference or when the reference does not resolve, otherwise
the rendered `slice(-30)` window joined by newlines. -/
def chatHistoryString (convs : List Conversation) (conversationId : Option String) : String :=
  match conversationId with
  | none => ""
  | some cid =>
    if cid = "" then ""
    else
      match findById convs cid with
      | some chat => String.intercalate "\n" ((recentMessages chat).map renderMsg)
      | none => ""

/-- Metadata attached to a vector-index match. -/
structure AgencyMatch where
  name : String
  services : String
  rating : Int
  area : String
  deriving Repr, DecidableEq

/-- The retrieved-agency block of the chat prompt: one line per match, or
the fixed no-match marker. -/
def agencyContextString (found : List AgencyMatch) : String :=
  if found.length > 0 then
    String.intercalate "\n" (found.map (fun m =>
      "Agency: " ++ m.name ++ ", Services: " ++ m.services ++
      ", Rating: " ++ toString m.rating ++ ", Area: " ++ m.area))
  else "No specific agencies found."

/-- The profile block of the chat prompt: the fixed anonymous marker when
the email has no record, otherwise the interpolated profile fields. -/
def chatUserContext (users : List User) (em : String) : String :=
  match findOne users em with
  | some user =>
      "USER PROFILE: Name: " ++ jsStr user.name ++ ", Age: " ++ jsInt user.age ++
      ", Medical History: " ++ jsStr user.medicalHistory ++ ", Address: " ++ jsStr user.address
  | none => "User Profile: Anonymous."

/-- The chat prompt template of `POST /api/chat`. -/
def mkChatPrompt (userContext chatHistory agencyContext message : String) : String :=
  "SYSTEM: You are LokSeva, an AI Care Coordinator. Your goal is to match the user\x27s specific medical needs with the Verified Agencies provided below.\n\n"
  ++ userContext ++ "\n\nHISTORY:\n" ++ chatHistory
  ++ "\n\nVERIFIED AGENCIES (Source of Truth):\n" ++ agencyContext
  ++ "\n\nUSER QUERY: \x22" ++ message ++ "\x22\n\n"
  ++ "STRICT GOVERNANCE RULES:\n"
  ++ "1. ZERO HALLUCINATION: You must ONLY recommend agencies listed in the \x22VERIFIED AGENCIES\x22 block above. Do not invent names, ratings, or locations.\n"
  ++ "2. FACTUALITY: If the \x27VERIFIED AGENCIES\x27 block says \x22No specific agencies found,\x22 you MUST state that you cannot find a match right now. Do not make one up.\n"
  ++ "3. TONE: Be empathetic but professional. Acknowledge their condition (e.g., \x22Given your diabetes...\x22) to show you are listening.\n\n"
  ++ "TASK: Output a JSON object.\n"
  ++ "- \x22reply\x22: The chat message. Explain why you chose these agencies based on the user\x27s profile.\n"
  ++ "- \x22recommendations\x22: The list of cards.\n\n"
  ++ "KEEP THE ELEMENTS of the json AS BRIEF AS POSSIBLE BUT WITH FACTUAL DATA (if numbers are there go with them, or else brief and to the point sentences without missing anything important)\n\n"
  ++ "OUTPUT FORMAT (Strict JSON):\n"
  ++ "\x7b \x22reply\x22: \x22String\x22, \x22recommendations\x22: [ \x7b \x22name\x22: \x22String (Exact name from Source)\x22, \x22rating\x22: Number (Exact rating from Source), \x22location\x22: \x22String (Exact area)\x22, \x22reason\x22: \x22String (Why this fits the user\x27s specific medical history)\x22 \x7d ] \x7d"

/-- The title prompt used for a newly created conversation. -/
def mkTitlePrompt (message : String) : String :=
  "Generate a title for this chat. MAX 40 characters. NO formatting. NO newlines. Query: \x22"
  ++ message ++ "\x22"

/-- One entry of the parsed `recommendations` array. -/
structure Recommendation where
  name : String
  rating : Int
  location : String
  reason : String
  deriving Repr, DecidableEq

/-- The structured object the generated output is parsed into. -/
structure ParsedChat where
  reply : String
  recommendations : List Recommendation
  deriving Repr, DecidableEq

/-- The external collaborators of the chat handler, plus the identifier and
timestamp the document store would generate: the embedding client, the
vector index, the generation client (already key-rotated), the runtime
JSON parser, and the title-generation call. -/
structure ChatOracles where
  embed : String → List Int
  search : List Int → List AgencyMatch
  generate : String → String
  parseJson : String → Option ParsedChat
  genTitle : String → String
  freshId : String
  nowTime : Nat

/-- The body of `POST /api/chat`. -/
structure ChatReq where
  message : String
  user_email : Option String
  conversationId : Option String
  deriving Repr, DecidableEq

/-- Outcome of `POST /api/chat`. -/
inductive ChatOutcome where
  | ok (reply : String) (recommendations : List Recommendation)
       (conversationId : String) (title : Option String)
  | badRequest (error : String)
  | serverError (error : String)
  deriving Repr, DecidableEq

/-- HTTP status of a chat outcome. -/
def ChatOutcome.status : ChatOutcome → Nat
  | .ok _ _ _ _ => 200
  | .badRequest _ => 400
  | .serverError _ => 500

/-- Result of one chat request: the outcome, the Conversation Store after
the request, and how often each external call was made. -/
structure ChatResult where
  outcome : ChatOutcome
  store : List Conversation
  embedCalls : Nat
  searchCalls : Nat
  genCalls : Nat
  deriving Repr, DecidableEq

/-- `conversation.save()` for a document loaded by id: the stored record
with that id is replaced. -/
def saveConversation (convs : List Conversation) (updated : Conversation) :
    List Conversation :=
  convs.map (fun c => if c.id = updated.id then updated else c)

/-- The full chat prompt assembled for a request: profile context,
transcript, retrieved-agency context (from the embedding of the raw
message) and the message itself. -/
def chatPromptOf (users : List User) (convs : List Conversation)
    (o : ChatOracles) (req : ChatReq) (em : String) : String :=
  mkChatPrompt (chatUserContext users em)
    (chatHistoryString convs req.conversationId)
    (agencyContextString (o.search (o.embed req.message)))
    req.message

/-- The generated output after fence stripping and JSON parsing, with the
raw-text fallback on parse failure. -/
def chatParsedOf (users : List User) (convs : List Conversation)
    (o : ChatOracles) (req : ChatReq) (em : String) : ParsedChat :=
  match o.parseJson (cleanGenOutput (o.generate (chatPromptOf users convs o req em))) with
  | some p => p
  | none =>
    { reply := cleanGenOutput (o.generate (chatPromptOf users convs o req em))
      recommendations := [] }

/-- The `POST /api/chat` handler: validate the email, build the profile,
transcript and retrieval context, generate, strip fences and parse (with
the raw-text fallback), then append to the referenced conversation or
create a new one; a supplied but unresolvable reference reaches the
response serialization with a null conversation and raises the generic
server error. -/
def chatHandler (users : List User) (convs : List Conversation)
    (o : ChatOracles) (req : ChatReq) : ChatResult :=
  match req.user_email with
  | none => ⟨.badRequest "user_email is required", convs, 0, 0, 0⟩
  | some em =>
    if em = "" then ⟨.badRequest "user_email is required", convs, 0, 0, 0⟩
    else
      let parsedResponse := chatParsedOf users convs o req em
      let createNew : ChatResult :=
        let title := cleanTitle (o.genTitle (mkTitlePrompt req.message))
        let conversation : Conversation :=
          { id := o.freshId, user_email := em, title := some title,
            createdAt := o.nowTime,
            messages := [⟨"user", req.message, o.nowTime⟩,
                         ⟨"bot", parsedResponse.reply, o.nowTime⟩] }
        ⟨.ok parsedResponse.reply parsedResponse.recommendations conversation.id (some title),
         convs ++ [conversation], 1, 1, 2⟩
      match req.conversationId with
      | none => createNew
      | some cid =>
        if cid = "" then createNew
        else
          match findById convs cid with
          | some conversation =>
            let updated := { conversation with
              messages := conversation.messages ++
                [⟨"user", req.message, o.nowTime⟩,
                 ⟨"bot", parsedResponse.reply, o.nowTime⟩] }
            ⟨.ok parsedResponse.reply parsedResponse.recommendations
                conversation.id conversation.title,
             saveConversation convs updated, 1, 1, 1⟩
          | none => ⟨.serverError "Something went wrong", convs, 1, 1, 1⟩

/-- Descending insertion by `createdAt`, modelling `.sort({ createdAt: -1 })`. -/
def insertByRecency (c : Conversation) : List Conversation → List Conversation
  | [] => [c]
  | d :: rest =>
    if d.createdAt ≤ c.createdAt then c :: d :: rest
    else d :: insertByRecency c rest

/-- Sort conversations most-recent first. -/
def sortByRecency : List Conversation → List Conversation
  | [] => []
  | c :: rest => insertByRecency c (sortByRecency rest)

/-- One summary entry of the history response. -/
structure HistoryItem where
  conversationId : String
  title : String
  date : String
  lastMessage : String
  deriving Repr, DecidableEq

/-- Body of a successful history response. -/
structure HistoryResp where
  history : List HistoryItem
  hasMore : Bool
  deriving Repr, DecidableEq

/-- Outcome of `GET /api/chat/history`. -/
inductive HistoryOutcome where
  | ok (resp : HistoryResp)
  | badRequest (error : String)
  deriving Repr, DecidableEq

/-- Formatting of one conversation summary (`chat.title || "New Chat"`,
the creation date or the current time, and the truncated last message). -/
def formatHistoryItem (now : String) (chat : Conversation) : HistoryItem :=
  { conversationId := chat.id
    title := jsOrStr chat.title "New Chat"
    date := if chat.createdAt ≠ 0 then toString chat.createdAt else now
    lastMessage :=
      if chat.messages.length > 0 then
        ((chat.messages.getLast?.map Msg.text).getD "").take 50 ++ "..."
      else "" }

/-- The `GET /api/chat/history` handler: filter by email, sort by recency,
skip `(page-1)*limit`, take `limit`, and report `hasMore` exactly when a
full page was returned. -/
def historyHandler (convs : List Conversation) (user_email : Option String)
    (page limit : Nat) (now : String) : HistoryOutcome :=
  match user_email with
  | none => .badRequest "user_email is required"
  | some em =>
    if em = "" then .badRequest "user_email is required"
    else
      let pageItems :=
        ((sortByRecency (convs.filter (fun c => c.user_email = em))).drop
          ((page - 1) * limit)).take limit
      .ok { history := pageItems.map (formatHistoryItem now)
            hasMore := pageItems.length == limit }

/-- The body of `POST /api/audit-image`. -/
structure AuditReq where
  imageBase64 : Option String
  roomType : Option String
  user_email : Option String
  deriving Repr, DecidableEq

/-- Outcome of `POST /api/audit-image`. -/
inductive AuditOutcome where
  | ok (audit_report : String)
  | badRequest (error : String)
  | serverError (error : String)
  deriving Repr, DecidableEq

/-- HTTP status of an audit outcome. -/
def AuditOutcome.status : AuditOutcome → Nat
  | .ok _ => 200
  | .badRequest _ => 400
  | .serverError _ => 500

/-- Result of one audit request: the outcome and whether the generation
client was invoked. -/
structure AuditResult where
  outcome : AuditOutcome
  genCalled : Bool
  deriving Repr, DecidableEq

/-- The fixed NBC 2016 reference checklist embedded into the audit prompt. -/
def nbcStandards : String :=
  "REFERENCE STANDARDS (National Building Code of India 2016 - Accessibility):\n"
  ++ "1. BATHROOM & TOILETS (Critical Zone):\n"
  ++ "- DOOR: Minimum 900mm clear opening; must open outwards or slide. Lock must be openable from outside in emergency.\n"
  ++ "- WC SEAT: Top of seat must be 450mm - 480mm from floor.\n"
  ++ "- GRAB BARS (WC): Horizontal U-shape/L-shape bar mounted at 750mm - 850mm height. Vertical bar length min 600mm, mounted 150mm from front of WC. Diameter 38mm - 50mm (circular profile) for secure grip. Wall clearance of 50mm between bar and wall to prevent hand trapping.\n"
  ++ "- SHOWER AREA: Size min 1500mm x 1500mm for wheelchair turning. Wall-mounted folding seat at 450mm height. Lever type controls placed at 800mm - 1000mm height.\n"
  ++ "- ALARM: Emergency pull cord extending to within 300mm of floor.\n"
  ++ "2. RAMPS & STAIRS (Mobility Zone):\n"
  ++ "- RAMP GRADIENT: Max 1:12 (1:15 preferred). Max rise per run: 760mm.\n"
  ++ "- RAMP WIDTH: Min 1200mm clear width.\n"
  ++ "- LANDING: Min 1500mm x 1500mm landing at top and bottom of ramps.\n"
  ++ "- HANDRAILS: Required on BOTH sides. Double rail system at 760mm and 900mm from floor. Must extend 300mm horizontally beyond top/bottom step. Handrails must visually contrast with the wall background.\n"
  ++ "- STEPS: Riser max 150mm; Tread min 300mm. Open risers (gaps) are PROHIBITED.\n"
  ++ "- NOSING: Step edges must have 50mm - 75mm wide contrasting color strip.\n"
  ++ "3. CIRCULATION & DOORS (Access Zone):\n"
  ++ "- CORRIDORS: Min clear width 1200mm.\n"
  ++ "- TURNING RADIUS: 1500mm diameter clear space required for 180-degree wheelchair turn.\n"
  ++ "- DOOR HARDWARE: Lever handles (D-shape) required. Round knobs are a HAZARD.\n"
  ++ "- OPERATING FORCE: Door opening force max 22N.\n"
  ++ "- THRESHOLDS: Max 12mm height, beveled/chamfered edges. Raised thresholds >15mm are tripping hazards.\n"
  ++ "4. ELECTRICAL & CONTROLS: All light switches, sockets, and AC controls between 800mm and 1100mm. Switches min 400mm from room corners.\n"
  ++ "5. FLOORING & SURFACES: Slip Resistance Rating R10 or higher (COF > 0.6). Matte finish required; Glazed/Polished tiles are a MAJOR HAZARD. Carpet pile height max 13mm; edges must be fastened to floor."

/-- The audit prompt template of `POST /api/audit-image`. -/
def mkAuditPrompt (userContext roomLabel : String) : String :=
  "SYSTEM: You are an expert Home Safety Auditor specializing in Geriatric Care and NBC 2016 Standards, which are provided.\n\n"
  ++ nbcStandards
  ++ "\n\nUSER CONTEXT: " ++ userContext
  ++ "\n\nTASK: Analyze this image of a " ++ roomLabel ++ " specifically for THIS user.\n\n"
  ++ "STRICT ANALYSIS ZONES:\n"
  ++ "1. FLOORING: Look for trip hazards (rugs, cords) or slip risks (wet tiles) relevant to their mobility.\n"
  ++ "2. SUPPORT: Check for grab bars/handrails. Are they missing where this specific user needs them?\n"
  ++ "3. LIGHTING: Is it bright enough for someone with potential vision issues?\n"
  ++ "4. ACCESSIBILITY: Is the pathway wide enough (>900mm) for a walker/wheelchair if the user needs one?\n\n"
  ++ "NOTE: DO NOT HALLUCINATE. You can just say \x22All is well\x22 for the recommendations and hazards if they do not have any issues according to the NBC 2016 Standards.\n\n"
  ++ "KEEP ELEMENTS of the json as brief as possible with FACTUAL DATA (if numbers are there do include them else give brief and to the point reasoning without missing anything important)\n\n"
  ++ "OUTPUT FORMAT (Strict JSON):\n"
  ++ "\x7b \x22safety_score\x22: Integer (1-10, where 10 is safest. Must be a raw Integer, not a String), \x22hazards\x22: [\x22String: Specific hazard \x22], \x22recommendations\x22: [\x22String: Specific fix \x22] \x7d"

/-- The profile block of the audit prompt. -/
def auditUserContext (user : User) : String :=
  "USER PROFILE:\n- Age: " ++ jsInt user.age
  ++ "\n- Mobility/Health Issues: " ++ jsStr user.medicalHistory
  ++ " (CRITICAL: Prioritize hazards related to this)"

/-- `imageBase64.includes(",") ? imageBase64.split(",")[1] : imageBase64`:
strip a data-URI prefix from the payload. -/
def stripDataUri (img : String) : String :=
  if img.contains (Char.ofNat 44) then ((img.splitOn ",").drop 1).headD ""
  else img

/-- The `POST /api/audit-image` handler: validate `user_email` and
`imageBase64`, resolve the profile, clean the payload, then log the
request — the log line dereferences `user.medicalHistory` without a null
check, so an email with no stored profile throws before the generation
call and is caught as the generic vision failure.  With a stored profile
the personalized prompt plus inline image is sent to the generation client
and the fence-stripped output is returned verbatim. -/
def auditHandler (users : List User) (generate : String → String → String)
    (req : AuditReq) : AuditResult :=
  match req.user_email with
  | none => ⟨.badRequest "user_email is required", false⟩
  | some em =>
    if em = "" then ⟨.badRequest "user_email is required", false⟩
    else
      match req.imageBase64 with
      | none => ⟨.badRequest "No image provided", false⟩
      | some img =>
        if img = "" then ⟨.badRequest "No image provided", false⟩
        else
          let user := findOne users em
          let userContext :=
            match user with
            | some u => auditUserContext u
            | none => "User is an elderly individual."
          let base64Data := stripDataUri img
          match user with
          | none =>
              ⟨.serverError
                "Vision Analysis Failed: Cannot read properties of null",
               false⟩
          | some _ =>
              let raw := generate
                (mkAuditPrompt userContext (jsOrStr req.roomType "room"))
                base64Data
              ⟨.ok (cleanGenOutput raw), true⟩

/-- A document of the `Agency` collection. -/
structure Agency where
  _id : String
  name : String
  locationCity : String
  locationArea : String
  services : List String
  rating : Int
  contact : String
  policy : String
  deriving Repr, DecidableEq

/-- A record of the vector index (identifier, vector, flattened metadata). -/
structure VectorRecord where
  id : String
  values : List Int
  metaName : String
  metaArea : String
  metaServices : String
  metaRating : Int
  deriving Repr, DecidableEq

/-- The descriptive sentence synthesized for each catalog entry. -/
def textToEmbed (a : Agency) : String :=
  a.name ++ " offers " ++ String.intercalate ", " a.services ++ " in "
  ++ a.locationArea ++ ". Rating: " ++ toString a.rating ++ "."

/-- Whether an `Except` result is a success. -/
def exceptIsOk {ε α : Type} : Except ε α → Bool
  | .ok _ => true
  | .error _ => false

/-- The embedding loop of the seeding job: embed every catalog entry in
order, accumulating the vector records in memory; the first embedding
failure aborts the whole batch. -/
def buildVectors (embed : String → Except String (List Int)) :
    List Agency → Except String (List VectorRecord)
  | [] => .ok []
  | a :: rest =>
    match embed (textToEmbed a) with
    | .error e => .error e
    | .ok values =>
      match buildVectors embed rest with
      | .error e => .error e
      | .ok vs =>
        .ok ({ id := a._id, values := values, metaName := a.name,
               metaArea := a.locationArea,
               metaServices := String.intercalate ", " a.services,
               metaRating := a.rating } :: vs)

/-- Upsert of a single record into the vector index: overwrite every record
holding the same identifier, or append when the identifier is new. -/
def upsertOne (idx : List VectorRecord) (v : VectorRecord) : List VectorRecord :=
  if idx.any (fun w => w.id = v.id) then
    idx.map (fun w => if w.id = v.id then v else w)
  else idx ++ [v]

/-- `index.upsert(vectors)`: the batch upsert, record by record. -/
def upsertBatch (idx : List VectorRecord) (vs : List VectorRecord) :
    List VectorRecord :=
  vs.foldl upsertOne idx

/-- Outcome of `POST /api/seed-vectors`. -/
inductive SeedOutcome where
  | ok (message : String)
  | serverError (error : String)
  deriving Repr, DecidableEq

/-- The `POST /api/seed-vectors` handler: embed every catalog entry into an
in-memory list, then write the whole batch in one upsert; any embedding
error aborts before the index is touched. -/
def seedHandler (embed : String → Except String (List Int))
    (agencies : List Agency) (idx : List VectorRecord) :
    SeedOutcome × List VectorRecord :=
  match buildVectors embed agencies with
  | .error e => (.serverError e, idx)
  | .ok vectors =>
    if vectors.length > 0 then
      (.ok ("Successfully embedded " ++ toString vectors.length ++ " agencies!"),
       upsertBatch idx vectors)
    else
      (.ok ("Successfully embedded " ++ toString vectors.length ++ " agencies!"),
       idx)

/-- The identifiers stored in the vector index. -/
def vectorKeys (idx : List VectorRecord) : List String :=
  idx.map (fun v => v.id)

/-- Number of index records carrying a given identifier. -/
def countId (idx : List VectorRecord) (i : String) : Nat :=
  (idx.filter (fun v => v.id = i)).length

/-! Concrete inputs used by the witness theorems. -/

/-- A first profile submission. -/
def exReq1 : ProfileReq :=
  { email := some "a@b.c", name := some "Alice", profilePic := none,
    phone := some "111", age := some 70, address := none,
    medicalHistory := some "Diabetic" }

/-- A second profile submission for the same email: `profilePic` and
`address` overwrite, `phone` is submitted empty, `age` is submitted as the
falsy `0`, `name` and `medicalHistory` are omitted. -/
def exReq2 : ProfileReq :=
  { email := some "a@b.c", name := none, profilePic := some "pic.png",
    phone := some "", age := some 0, address := some "Delhi",
    medicalHistory := none }

/-- A conversation store holding a given number of conversations for the
email `u@x`, most recent last. -/
def exConvs (n : Nat) : List Conversation :=
  (List.range n).map (fun i =>
    { id := toString i, user_email := "u@x", title := some ("Chat " ++ toString i),
      createdAt := i + 1, messages := [⟨"user", "hello " ++ toString i, i + 1⟩] })

/-- Fixed external collaborators for the chat witnesses: the generated
output never parses as JSON. -/
def exOracles : ChatOracles :=
  { embed := fun _ => [1, 2, 3]
    search := fun _ => []
    generate := fun _ => "```json not actually json```"
    parseJson := fun _ => none
    genTitle := fun _ => "A Title"
    freshId := "fresh-1"
    nowTime := 99 }

/-- A stored conversation with three messages. -/
def exConv : Conversation :=
  { id := "c7", user_email := "u@x", title := some "Stored",
    createdAt := 4,
    messages := [⟨"user", "m1", 1⟩, ⟨"bot", "m2", 2⟩, ⟨"user", "m3", 3⟩] }

/-- A one-entry agency catalog. -/
def exAgency : Agency :=
  { _id := "ag1", name := "CareCo", locationCity := "Pune",
    locationArea := "Kothrud", services := ["nursing", "physio"],
    rating := 4, contact := "123", policy := "none" }

section Theorems

/-! Shared helper lemmas. -/

theorem findAppendNone {α : Type} {p : α → Bool} {l1 : List α} (l2 : List α)
    (h : l1.find? p = none) : (l1 ++ l2).find? p = l2.find? p := by
  simp [List.find?_append, h]

theorem saveFirstAppend (l1 : List User) (u : User) (em : String)
    (req : ProfileReq) (h : ∀ x ∈ l1, x.email ≠ em) :
    saveFirst (l1 ++ [u]) em req = l1 ++ saveFirst [u] em req := by
  induction l1 with
  | nil => rfl
  | cons a l ih =>
    have ha : ¬ (a.email = em) := h a (by simp)
    simp only [List.cons_append, saveFirst, if_neg ha]
    exact congrArg (List.cons a) (ih (fun x hx => h x (List.mem_cons_of_mem a hx)))

theorem emailFilterNil (store : List User) (em : String)
    (h : ∀ x ∈ store, x.email ≠ em) :
    store.filter (fun u => u.email = em) = [] := by
  induction store with
  | nil => rfl
  | cons a l ih =>
    have ha : ¬ (a.email = em) := h a (by simp)
    simp only [List.filter_cons]
    rw [if_neg (by simpa using ha)]
    exact ih (fun x hx => h x (List.mem_cons_of_mem a hx))

/-- C1: submitting a profile twice with the same email leaves exactly one
stored record for that email, and each optional field holds the second
submission's value when that was non-empty (truthy) and otherwise retains
the value stored by the first submission. -/
theorem profile_double_submit_last_write_wins
    (store : List User) (req1 req2 : ProfileReq) (em : String)
    (h1 : req1.email = some em) (h2 : req2.email = some em) (hem : em ≠ "")
    (h0 : findOne store em = none) :
    countEmail (profileHandler (profileHandler store req1).2 req2).2 em = 1 ∧
    findOne (profileHandler (profileHandler store req1).2 req2).2 em = some
      { email := em
        name := if strTruthy req2.name then req2.name else req1.name
        profilePic := if strTruthy req2.profilePic then req2.profilePic else req1.profilePic
        phone := if strTruthy req2.phone then req2.phone else req1.phone
        age := if intTruthy req2.age then req2.age else req1.age
        address := if strTruthy req2.address then req2.address else req1.address
        medicalHistory := if strTruthy req2.medicalHistory then req2.medicalHistory else req1.medicalHistory } := by
  have hall : ∀ x ∈ store, x.email ≠ em := by
    intro x hx
    have := List.find?_eq_none.mp h0 x hx
    simpa using this
  have hs1 : (profileHandler store req1).2 = store ++ [mkUser em req1] := by
    simp [profileHandler, h1, hem, h0]
  have hfind1 : findOne (store ++ [mkUser em req1]) em = some (mkUser em req1) := by
    unfold findOne
    rw [findAppendNone _ h0]
    simp [mkUser]
  have hs2 : (profileHandler (profileHandler store req1).2 req2).2 =
      saveFirst (store ++ [mkUser em req1]) em req2 := by
    rw [hs1]
    simp [profileHandler, h2, hem, hfind1]
  have hsave : saveFirst (store ++ [mkUser em req1]) em req2 =
      store ++ [updateUser (mkUser em req1) req2] := by
    rw [saveFirstAppend _ _ _ _ hall]
    simp [saveFirst, mkUser]
  have hupd : updateUser (mkUser em req1) req2 =
      { email := em
        name := if strTruthy req2.name then req2.name else req1.name
        profilePic := if strTruthy req2.profilePic then req2.profilePic else req1.profilePic
        phone := if strTruthy req2.phone then req2.phone else req1.phone
        age := if intTruthy req2.age then req2.age else req1.age
        address := if strTruthy req2.address then req2.address else req1.address
        medicalHistory := if strTruthy req2.medicalHistory then req2.medicalHistory else req1.medicalHistory } := by
    simp [updateUser, mkUser, orField, orAge]
  rw [hs2, hsave]
  constructor
  · unfold countEmail
    rw [List.filter_append, emailFilterNil store em hall]
    simp [hupd]
  · unfold findOne
    rw [findAppendNone _ h0]
    simp [hupd]

/-- Witness for C1 at a concrete pair of submissions over the empty store. -/
theorem profile_double_submit_last_write_wins_witness :
    (exReq1.email = some "a@b.c") ∧ (exReq2.email = some "a@b.c") ∧
    ("a@b.c" ≠ "") ∧ (findOne [] "a@b.c" = none) ∧
    (countEmail (profileHandler (profileHandler [] exReq1).2 exReq2).2 "a@b.c" = 1 ∧
     findOne (profileHandler (profileHandler [] exReq1).2 exReq2).2 "a@b.c" = some
      { email := "a@b.c"
        name := if strTruthy exReq2.name then exReq2.name else exReq1.name
        profilePic := if strTruthy exReq2.profilePic then exReq2.profilePic else exReq1.profilePic
        phone := if strTruthy exReq2.phone then exReq2.phone else exReq1.phone
        age := if intTruthy exReq2.age then exReq2.age else exReq1.age
        address := if strTruthy exReq2.address then exReq2.address else exReq1.address
        medicalHistory := if strTruthy exReq2.medicalHistory then exReq2.medicalHistory else exReq1.medicalHistory }) :=
  ⟨rfl, rfl, by decide, rfl,
   profile_double_submit_last_write_wins [] exReq1 exReq2 "a@b.c" rfl rfl (by decide) rfl⟩

theorem length_insertByRecency (c : Conversation) (l : List Conversation) :
    (insertByRecency c l).length = l.length + 1 := by
  induction l with
  | nil => rfl
  | cons d rest ih =>
    by_cases hd : d.createdAt ≤ c.createdAt
    · simp [insertByRecency, hd]
    · simp [insertByRecency, hd, ih]

theorem length_sortByRecency (l : List Conversation) :
    (sortByRecency l).length = l.length := by
  induction l with
  | nil => rfl
  | cons c rest ih => simp [sortByRecency, length_insertByRecency, ih]

theorem historyHandlerOk (convs : List Conversation) (em : String)
    (page limit : Nat) (now : String) (hem : em ≠ "") :
    historyHandler convs (some em) page limit now = .ok
      { history := (((sortByRecency (convs.filter (fun c => c.user_email = em))).drop
          ((page - 1) * limit)).take limit).map (formatHistoryItem now)
        hasMore := (((sortByRecency (convs.filter (fun c => c.user_email = em))).drop
          ((page - 1) * limit)).take limit).length == limit } := by
  simp [historyHandler, hem]

/-- C3: the history response reports `hasMore` exactly when the returned
page is full; with `page=1`, `limit=10` this is `true` when exactly ten
conversations match the email and `false` when exactly nine do. -/
theorem history_hasMore_iff_full_page (convs : List Conversation)
    (em now : String) (hem : em ≠ "") :
    (∀ page limit : Nat, ∃ resp,
       historyHandler convs (some em) page limit now = .ok resp ∧
       (resp.hasMore = true ↔ resp.history.length = limit)) ∧
    ((convs.filter (fun c => c.user_email = em)).length = 10 →
       ∃ resp, historyHandler convs (some em) 1 10 now = .ok resp ∧
         resp.hasMore = true) ∧
    ((convs.filter (fun c => c.user_email = em)).length = 9 →
       ∃ resp, historyHandler convs (some em) 1 10 now = .ok resp ∧
         resp.hasMore = false) := by
  refine ⟨?_, ?_, ?_⟩
  · intro page limit
    refine ⟨_, historyHandlerOk convs em page limit now hem, ?_⟩
    simp [List.length_map]
  · intro h10
    refine ⟨_, historyHandlerOk convs em 1 10 now hem, ?_⟩
    have hlen : (sortByRecency (convs.filter (fun c => c.user_email = em))).length = 10 := by
      rw [length_sortByRecency, h10]
    simp [List.length_take, List.length_drop, hlen]
  · intro h9
    refine ⟨_, historyHandlerOk convs em 1 10 now hem, ?_⟩
    have hlen : (sortByRecency (convs.filter (fun c => c.user_email = em))).length = 9 := by
      rw [length_sortByRecency, h9]
    simp [List.length_take, List.length_drop, hlen]

/-- Witness for C3 over concrete ten-conversation and page parameters. -/
theorem history_hasMore_iff_full_page_witness :
    ("u@x" ≠ "") ∧
    ((∀ page limit : Nat, ∃ resp,
       historyHandler (exConvs 10) (some "u@x") page limit "now" = .ok resp ∧
       (resp.hasMore = true ↔ resp.history.length = limit)) ∧
    (((exConvs 10).filter (fun c => c.user_email = "u@x")).length = 10 →
       ∃ resp, historyHandler (exConvs 10) (some "u@x") 1 10 "now" = .ok resp ∧
         resp.hasMore = true) ∧
    (((exConvs 10).filter (fun c => c.user_email = "u@x")).length = 9 →
       ∃ resp, historyHandler (exConvs 10) (some "u@x") 1 10 "now" = .ok resp ∧
         resp.hasMore = false)) :=
  ⟨by decide, history_hasMore_iff_full_page (exConvs 10) "u@x" "now" (by decide)⟩

/-- C9: an audit request without an image is answered with a 400 and a
field-specific message, and the generation client is never invoked. -/
theorem audit_missing_image_rejected (users : List User)
    (generate : String → String → String) (req : AuditReq)
    (h : req.imageBase64 = none) :
    (auditHandler users generate req).outcome =
      .badRequest (if strTruthy req.user_email then "No image provided"
                   else "user_email is required") ∧
    ((auditHandler users generate req).outcome).status = 400 ∧
    (auditHandler users generate req).genCalled = false := by
  cases hue : req.user_email with
  | none => simp [auditHandler, hue, h, strTruthy, AuditOutcome.status]
  | some em =>
    by_cases hem : em = ""
    · simp [auditHandler, hue, hem, h, strTruthy, AuditOutcome.status]
    · simp [auditHandler, hue, hem, h, strTruthy, AuditOutcome.status]

/-- Witness for C9 at a concrete image-less audit request. -/
theorem audit_missing_image_rejected_witness :
    (({ imageBase64 := none, roomType := some "Bathroom",
        user_email := some "u@x" } : AuditReq).imageBase64 = none) ∧
    ((auditHandler [] (fun _ _ => "REPORT")
        { imageBase64 := none, roomType := some "Bathroom",
          user_email := some "u@x" }).outcome =
      .badRequest (if strTruthy (some "u@x") then "No image provided"
                   else "user_email is required") ∧
    ((auditHandler [] (fun _ _ => "REPORT")
        { imageBase64 := none, roomType := some "Bathroom",
          user_email := some "u@x" }).outcome).status = 400 ∧
    (auditHandler [] (fun _ _ => "REPORT")
        { imageBase64 := none, roomType := some "Bathroom",
          user_email := some "u@x" }).genCalled = false) :=
  ⟨rfl, audit_missing_image_rejected [] (fun _ _ => "REPORT")
    { imageBase64 := none, roomType := some "Bathroom",
      user_email := some "u@x" } rfl⟩

/-- C2 (code bug): an audit request whose supplied email has no record in
the Profile Store does not fall back to the default user context — the log
statement dereferences the null profile, so the handler throws before the
generation call and answers with the generic 500, and the generation
client is never invoked. -/
theorem audit_unknown_profile_crashes :
    auditHandler [] (fun _ _ => "REPORT")
      { imageBase64 := some "abc", roomType := some "Bathroom",
        user_email := some "ghost@example.com" } =
      { outcome := .serverError
          "Vision Analysis Failed: Cannot read properties of null",
        genCalled := false } := rfl

/-- C6: when a chat request's conversation reference resolves, the
transcript rendered into the prompt is built from exactly the
`min(N, 30)` most recent stored messages in stored order — a suffix of the
stored list — and (for pairwise-distinct messages) no message older than
the 30 most recent occurs in that window. -/
theorem chat_history_window (convs : List Conversation) (cid : String)
    (chat : Conversation) (hcid : cid ≠ "")
    (hf : findById convs cid = some chat) :
    chatHistoryString convs (some cid) =
      String.intercalate "\n"
        ((chat.messages.drop (chat.messages.length - 30)).map renderMsg) ∧
    (chat.messages.drop (chat.messages.length - 30)).length =
      min chat.messages.length 30 ∧
    chat.messages.drop (chat.messages.length - 30) <:+ chat.messages ∧
    (chat.messages.Nodup → ∀ i : Nat, i < chat.messages.length - 30 →
      ∀ m, chat.messages[i]? = some m →
        m ∉ chat.messages.drop (chat.messages.length - 30)) := by
  refine ⟨?_, ?_, ?_, ?_⟩
  · simp [chatHistoryString, hcid, hf, recentMessages]
  · simp only [List.length_drop]
    omega
  · exact List.drop_suffix _ _
  · intro hnd i hi m hm hmem
    have hnd2 : (chat.messages.take (chat.messages.length - 30) ++
        chat.messages.drop (chat.messages.length - 30)).Nodup := by
      rw [List.take_append_drop]
      exact hnd
    have hdisj := (List.nodup_append.mp hnd2).2.2
    have hmtake : m ∈ chat.messages.take (chat.messages.length - 30) := by
      apply List.mem_iff_getElem?.mpr
      exact ⟨i, by rw [List.getElem?_take_of_lt hi]; exact hm⟩
    exact hdisj hmtake hmem

/-- Witness for C6 at a stored three-message conversation. -/
theorem chat_history_window_witness :
    ("c7" ≠ "") ∧ (findById [exConv] "c7" = some exConv) ∧
    (chatHistoryString [exConv] (some "c7") =
      String.intercalate "\n"
        ((exConv.messages.drop (exConv.messages.length - 30)).map renderMsg) ∧
    (exConv.messages.drop (exConv.messages.length - 30)).length =
      min exConv.messages.length 30 ∧
    exConv.messages.drop (exConv.messages.length - 30) <:+ exConv.messages ∧
    (exConv.messages.Nodup → ∀ i : Nat, i < exConv.messages.length - 30 →
      ∀ m, exConv.messages[i]? = some m →
        m ∉ exConv.messages.drop (exConv.messages.length - 30))) :=
  ⟨by decide, rfl, chat_history_window [exConv] "c7" exConv (by decide) rfl⟩

/-- C10: a chat request whose supplied conversation reference matches no
stored conversation fails with the generic 500 only after embedding,
retrieval and one generation call have all been performed, and leaves the
Conversation Store unchanged. -/
theorem chat_dangling_reference_500 (users : List User)
    (convs : List Conversation) (o : ChatOracles) (req : ChatReq)
    (em cid : String) (hem : req.user_email = some em) (hne : em ≠ "")
    (hcid : req.conversationId = some cid) (hcne : cid ≠ "")
    (hmiss : findById convs cid = none) :
    chatHandler users convs o req =
      { outcome := .serverError "Something went wrong", store := convs,
        embedCalls := 1, searchCalls := 1, genCalls := 1 } := by
  simp [chatHandler, hem, hne, hcid, hcne, hmiss]

/-- Witness for C10 at a concrete dangling reference. -/
theorem chat_dangling_reference_500_witness :
    (({ message := "hi", user_email := some "u@x",
        conversationId := some "nope" } : ChatReq).user_email = some "u@x") ∧
    ("u@x" ≠ "") ∧
    (({ message := "hi", user_email := some "u@x",
        conversationId := some "nope" } : ChatReq).conversationId = some "nope") ∧
    ("nope" ≠ "") ∧ (findById [] "nope" = none) ∧
    chatHandler [] [] exOracles
      { message := "hi", user_email := some "u@x", conversationId := some "nope" } =
      { outcome := .serverError "Something went wrong", store := [],
        embedCalls := 1, searchCalls := 1, genCalls := 1 } :=
  ⟨rfl, by decide, rfl, by decide, rfl,
   chat_dangling_reference_500 [] [] exOracles
     { message := "hi", user_email := some "u@x", conversationId := some "nope" }
     "u@x" "nope" rfl (by decide) rfl (by decide) rfl⟩

/-- C4 counterexample: a chat request whose supplied identity has no
stored profile does not always get a reply — with a conversation
reference that resolves to no stored conversation the same request fails
with the generic 500. -/
theorem chat_unknown_identity_cex :
    findOne [] "ghost@x" = none ∧
    (chatHandler [] [] exOracles
      { message := "need a nurse", user_email := some "ghost@x",
        conversationId := some "missing" }).outcome =
      .serverError "Something went wrong" :=
  ⟨rfl, rfl⟩

/-- C4 (amended): a chat request whose supplied identity has no record in
the Profile Store, and whose conversation reference (when supplied and
non-empty) resolves, is answered with HTTP 200 and a reply generated from
the prompt built over the fixed anonymous user context. -/
theorem chat_unknown_identity_anonymous (users : List User)
    (convs : List Conversation) (o : ChatOracles) (req : ChatReq) (em : String)
    (hem : req.user_email = some em) (hne : em ≠ "")
    (hu : findOne users em = none)
    (hres : ∀ cid, req.conversationId = some cid → cid ≠ "" →
      ∃ conv, findById convs cid = some conv) :
    chatPromptOf users convs o req em =
      mkChatPrompt "User Profile: Anonymous."
        (chatHistoryString convs req.conversationId)
        (agencyContextString (o.search (o.embed req.message))) req.message ∧
    ∃ recs cidOut t,
      (chatHandler users convs o req).outcome =
        .ok (chatParsedOf users convs o req em).reply recs cidOut t ∧
      ((chatHandler users convs o req).outcome).status = 200 := by
  constructor
  · unfold chatPromptOf
    rw [chatUserContext, hu]
  · cases hcid : req.conversationId with
    | none =>
      have hh : (chatHandler users convs o req).outcome =
          .ok (chatParsedOf users convs o req em).reply
            (chatParsedOf users convs o req em).recommendations
            o.freshId (some (cleanTitle (o.genTitle (mkTitlePrompt req.message)))) := by
        simp [chatHandler, hem, hne, hcid]
      exact ⟨_, _, _, hh, by rw [hh]; rfl⟩
    | some cid =>
      by_cases hcne : cid = ""
      · have hh : (chatHandler users convs o req).outcome =
            .ok (chatParsedOf users convs o req em).reply
              (chatParsedOf users convs o req em).recommendations
              o.freshId (some (cleanTitle (o.genTitle (mkTitlePrompt req.message)))) := by
          simp [chatHandler, hem, hne, hcid, hcne]
        exact ⟨_, _, _, hh, by rw [hh]; rfl⟩
      · obtain ⟨conv, hconv⟩ := hres cid hcid hcne
        have hh : (chatHandler users convs o req).outcome =
            .ok (chatParsedOf users convs o req em).reply
              (chatParsedOf users convs o req em).recommendations
              conv.id conv.title := by
          simp [chatHandler, hem, hne, hcid, hcne, hconv]
        exact ⟨_, _, _, hh, by rw [hh]; rfl⟩

/-- Witness for C4 (amended) at a concrete unknown identity without a
conversation reference. -/
theorem chat_unknown_identity_anonymous_witness :
    (({ message := "need a nurse", user_email := some "ghost@x",
        conversationId := none } : ChatReq).user_email = some "ghost@x") ∧
    ("ghost@x" ≠ "") ∧ (findOne [] "ghost@x" = none) ∧
    (chatPromptOf [] [] exOracles
      { message := "need a nurse", user_email := some "ghost@x",
        conversationId := none } "ghost@x" =
      mkChatPrompt "User Profile: Anonymous."
        (chatHistoryString [] none)
        (agencyContextString (exOracles.search (exOracles.embed "need a nurse")))
        "need a nurse" ∧
    ∃ recs cidOut t,
      (chatHandler [] [] exOracles
        { message := "need a nurse", user_email := some "ghost@x",
          conversationId := none }).outcome =
        .ok (chatParsedOf [] [] exOracles
          { message := "need a nurse", user_email := some "ghost@x",
            conversationId := none } "ghost@x").reply recs cidOut t ∧
      ((chatHandler [] [] exOracles
        { message := "need a nurse", user_email := some "ghost@x",
          conversationId := none }).outcome).status = 200) :=
  ⟨rfl, by decide, rfl,
   chat_unknown_identity_anonymous [] [] exOracles
     { message := "need a nurse", user_email := some "ghost@x",
       conversationId := none } "ghost@x" rfl (by decide) rfl
     (fun cid hcid _ => by simp at hcid)⟩

/-- C5 counterexample: a parse failure is not always answered with the
raw-text fallback and a success status — when the same request carries an
unresolvable conversation reference the handler answers with the generic
500 even though parsing failed. -/
theorem chat_parse_failure_cex :
    exOracles.parseJson (cleanGenOutput (exOracles.generate
      (chatPromptOf [] [] exOracles
        { message := "hello", user_email := some "v@y",
          conversationId := some "gone" } "v@y"))) = none ∧
    (chatHandler [] [] exOracles
      { message := "hello", user_email := some "v@y",
        conversationId := some "gone" }).outcome =
      .serverError "Something went wrong" :=
  ⟨rfl, rfl⟩

/-- C5 (amended): for a chat request whose conversation reference (when
supplied and non-empty) resolves, a generated output that fails JSON
parsing after fence stripping is answered with HTTP 200, the entire
cleaned raw output as the reply, and an empty recommendations list. -/
theorem chat_parse_failure_fallback (users : List User)
    (convs : List Conversation) (o : ChatOracles) (req : ChatReq) (em : String)
    (hem : req.user_email = some em) (hne : em ≠ "")
    (hres : ∀ cid, req.conversationId = some cid → cid ≠ "" →
      ∃ conv, findById convs cid = some conv)
    (hparse : o.parseJson (cleanGenOutput (o.generate
      (chatPromptOf users convs o req em))) = none) :
    ∃ cidOut t,
      (chatHandler users convs o req).outcome =
        .ok (cleanGenOutput (o.generate (chatPromptOf users convs o req em)))
          [] cidOut t ∧
      ((chatHandler users convs o req).outcome).status = 200 := by
  have hfb : chatParsedOf users convs o req em =
      { reply := cleanGenOutput (o.generate (chatPromptOf users convs o req em))
        recommendations := [] } := by
    unfold chatParsedOf
    rw [hparse]
  cases hcid : req.conversationId with
  | none =>
    have hh : (chatHandler users convs o req).outcome =
        .ok (cleanGenOutput (o.generate (chatPromptOf users convs o req em))) []
          o.freshId (some (cleanTitle (o.genTitle (mkTitlePrompt req.message)))) := by
      simp [chatHandler, hem, hne, hcid, hfb]
    exact ⟨_, _, hh, by rw [hh]; rfl⟩
  | some cid =>
    by_cases hcne : cid = ""
    · have hh : (chatHandler users convs o req).outcome =
          .ok (cleanGenOutput (o.generate (chatPromptOf users convs o req em))) []
            o.freshId (some (cleanTitle (o.genTitle (mkTitlePrompt req.message)))) := by
        simp [chatHandler, hem, hne, hcid, hcne, hfb]
      exact ⟨_, _, hh, by rw [hh]; rfl⟩
    · obtain ⟨conv, hconv⟩ := hres cid hcid hcne
      have hh : (chatHandler users convs o req).outcome =
          .ok (cleanGenOutput (o.generate (chatPromptOf users convs o req em))) []
            conv.id conv.title := by
        simp [chatHandler, hem, hne, hcid, hcne, hconv, hfb]
      exact ⟨_, _, hh, by rw [hh]; rfl⟩

/-- Witness for C5 (amended) at a concrete non-parsing generated output. -/
theorem chat_parse_failure_fallback_witness :
    (({ message := "hello", user_email := some "v@y",
        conversationId := none } : ChatReq).user_email = some "v@y") ∧
    ("v@y" ≠ "") ∧
    (exOracles.parseJson (cleanGenOutput (exOracles.generate
      (chatPromptOf [] [] exOracles
        { message := "hello", user_email := some "v@y",
          conversationId := none } "v@y"))) = none) ∧
    (∃ cidOut t,
      (chatHandler [] [] exOracles
        { message := "hello", user_email := some "v@y",
          conversationId := none }).outcome =
        .ok (cleanGenOutput (exOracles.generate (chatPromptOf [] [] exOracles
          { message := "hello", user_email := some "v@y",
            conversationId := none } "v@y"))) [] cidOut t ∧
      ((chatHandler [] [] exOracles
        { message := "hello", user_email := some "v@y",
          conversationId := none }).outcome).status = 200) :=
  ⟨rfl, by decide, rfl,
   chat_parse_failure_fallback [] [] exOracles
     { message := "hello", user_email := some "v@y", conversationId := none }
     "v@y" rfl (by decide) (fun cid hcid _ => by simp at hcid) rfl⟩

theorem vectorKeysUpsertOne (idx : List VectorRecord) (v : VectorRecord) :
    vectorKeys (upsertOne idx v) =
      if v.id ∈ vectorKeys idx then vectorKeys idx else vectorKeys idx ++ [v.id] := by
  unfold vectorKeys upsertOne
  by_cases hmem : v.id ∈ List.map (fun u => u.id) idx
  · obtain ⟨w, hw, hwe⟩ := List.mem_map.mp hmem
    have hany : idx.any (fun u => u.id = v.id) = true :=
      List.any_eq_true.mpr ⟨w, hw, by simp [hwe]⟩
    have hmap : List.map (fun u => u.id)
        (idx.map (fun w => if w.id = v.id then v else w)) =
        List.map (fun u => u.id) idx := by
      rw [List.map_map]
      apply List.map_congr_left
      intro u _
      by_cases huv : u.id = v.id
      · simp [huv]
      · simp [huv]
    rw [if_pos hmem]
    simp [hany, hmap]
  · have hany : idx.any (fun u => u.id = v.id) = false := by
      rw [List.any_eq_false]
      intro u hu
      simp only [decide_eq_true_eq]
      intro hue
      exact hmem (List.mem_map.mpr ⟨u, hu, hue⟩)
    rw [if_neg hmem]
    simp [hany]

theorem nodupVectorKeysUpsertOne (idx : List VectorRecord) (v : VectorRecord)
    (h : (vectorKeys idx).Nodup) : (vectorKeys (upsertOne idx v)).Nodup := by
  rw [vectorKeysUpsertOne]
  by_cases hmem : v.id ∈ vectorKeys idx
  · rw [if_pos hmem]
    exact h
  · rw [if_neg hmem]
    simp [List.nodup_append, h, hmem]

theorem memVectorKeysUpsertOneSelf (idx : List VectorRecord) (v : VectorRecord) :
    v.id ∈ vectorKeys (upsertOne idx v) := by
  rw [vectorKeysUpsertOne]
  by_cases hmem : v.id ∈ vectorKeys idx
  · rw [if_pos hmem]
    exact hmem
  · simp [hmem]

theorem memVectorKeysUpsertOneMono (idx : List VectorRecord) (v : VectorRecord)
    (i : String) (h : i ∈ vectorKeys idx) : i ∈ vectorKeys (upsertOne idx v) := by
  rw [vectorKeysUpsertOne]
  by_cases hmem : v.id ∈ vectorKeys idx
  · rw [if_pos hmem]
    exact h
  · simp [hmem, h]

theorem nodupVectorKeysUpsertBatch (vs : List VectorRecord) :
    ∀ idx : List VectorRecord, (vectorKeys idx).Nodup →
      (vectorKeys (upsertBatch idx vs)).Nodup := by
  induction vs with
  | nil => intro idx h; exact h
  | cons w ws ih =>
    intro idx h
    exact ih (upsertOne idx w) (nodupVectorKeysUpsertOne idx w h)

theorem memVectorKeysUpsertBatch (vs : List VectorRecord) :
    ∀ (idx : List VectorRecord) (i : String),
      (∃ v ∈ vs, v.id = i) ∨ i ∈ vectorKeys idx →
      i ∈ vectorKeys (upsertBatch idx vs) := by
  induction vs with
  | nil =>
    intro idx i h
    rcases h with ⟨v, hv, _⟩ | h
    · cases hv
    · exact h
  | cons w ws ih =>
    intro idx i h
    rcases h with ⟨v, hv, hvi⟩ | h
    · rcases List.mem_cons.mp hv with heq | hmem
      · subst heq
        exact ih (upsertOne idx v) i (Or.inr (hvi ▸ memVectorKeysUpsertOneSelf idx v))
      · exact ih (upsertOne idx w) i (Or.inl ⟨v, hmem, hvi⟩)
    · exact ih (upsertOne idx w) i
        (Or.inr (memVectorKeysUpsertOneMono idx w i h))

theorem countIdEqKeysCount (idx : List VectorRecord) (i : String) :
    countId idx i = (vectorKeys idx).count i := by
  induction idx with
  | nil => rfl
  | cons w rest ih =>
    simp only [countId, vectorKeys, List.filter_cons, List.map_cons,
      List.count_cons] at *
    by_cases hw : w.id = i
    · simp [hw, ih]
    · simp [hw, ih, Ne.symm hw]

theorem buildVectorsOk (embed : String → Except String (List Int)) :
    ∀ agencies : List Agency,
      (∀ a ∈ agencies, exceptIsOk (embed (textToEmbed a)) = true) →
      ∃ vs, buildVectors embed agencies = .ok vs ∧
        vs.map (fun v => v.id) = agencies.map (fun a => a._id) := by
  intro agencies
  induction agencies with
  | nil => intro _; exact ⟨[], rfl, rfl⟩
  | cons a rest ih =>
    intro h
    obtain ⟨vs, hvs, hids⟩ := ih (fun b hb => h b (List.mem_cons_of_mem a hb))
    cases hemb : embed (textToEmbed a) with
    | error e =>
      have := h a (List.mem_cons_self a rest)
      rw [hemb] at this
      simp [exceptIsOk] at this
    | ok values =>
      refine ⟨{ id := a._id, values := values, metaName := a.name,
                metaArea := a.locationArea,
                metaServices := String.intercalate ", " a.services,
                metaRating := a.rating } :: vs, ?_, ?_⟩
      · simp [buildVectors, hemb, hvs]
      · simp [hids]

theorem buildVectorsError (embed : String → Except String (List Int)) :
    ∀ agencies : List Agency,
      (∃ a ∈ agencies, exceptIsOk (embed (textToEmbed a)) = false) →
      ∃ e, buildVectors embed agencies = .error e := by
  intro agencies
  induction agencies with
  | nil =>
    intro h
    rcases h with ⟨a, ha, _⟩
    cases ha
  | cons a rest ih =>
    intro h
    cases hemb : embed (textToEmbed a) with
    | error e => exact ⟨e, by simp [buildVectors, hemb]⟩
    | ok values =>
      have hrest : ∃ b ∈ rest, exceptIsOk (embed (textToEmbed b)) = false := by
        rcases h with ⟨b, hb, hbf⟩
        rcases List.mem_cons.mp hb with heq | hmem
        · subst heq
          rw [hemb] at hbf
          simp [exceptIsOk] at hbf
        · exact ⟨b, hmem, hbf⟩
      obtain ⟨e, he⟩ := ih hrest
      exact ⟨e, by simp [buildVectors, hemb, he]⟩

/-- C8: when embedding any catalog entry fails, the seeding job aborts
with an error and the vector index is left exactly as it was — the batch
is only written after every entry embedded successfully. -/
theorem seed_abort_on_embed_failure (embed : String → Except String (List Int))
    (agencies : List Agency) (idx : List VectorRecord)
    (h : ∃ a ∈ agencies, exceptIsOk (embed (textToEmbed a)) = false) :
    (seedHandler embed agencies idx).2 = idx ∧
    ∃ e, (seedHandler embed agencies idx).1 = .serverError e := by
  obtain ⟨e, he⟩ := buildVectorsError embed agencies h
  constructor
  · simp [seedHandler, he]
  · exact ⟨e, by simp [seedHandler, he]⟩

/-- Witness for C8 at a one-entry catalog whose embedding fails. -/
theorem seed_abort_on_embed_failure_witness :
    (∃ a ∈ [exAgency],
      exceptIsOk ((fun _ => (.error "boom" : Except String (List Int)))
        (textToEmbed a)) = false) ∧
    ((seedHandler (fun _ => .error "boom") [exAgency] []).2 = [] ∧
     ∃ e, (seedHandler (fun _ => .error "boom") [exAgency] []).1 =
       .serverError e) :=
  ⟨⟨exAgency, List.mem_singleton.mpr rfl, rfl⟩,
   seed_abort_on_embed_failure (fun _ => .error "boom") [exAgency] []
     ⟨exAgency, List.mem_singleton.mpr rfl, rfl⟩⟩

/-- C7: running the seeding job twice over an unchanged catalog (with all
embeddings succeeding) leaves the vector index holding exactly one record
per catalog entry, keyed by the entry's document identifier — the second
run overwrites instead of duplicating. -/
theorem seed_twice_one_record_per_entry
    (embed : String → Except String (List Int)) (agencies : List Agency)
    (idx : List VectorRecord) (hidx : (vectorKeys idx).Nodup)
    (hemb : ∀ a ∈ agencies, exceptIsOk (embed (textToEmbed a)) = true) :
    ∀ a ∈ agencies,
      countId (seedHandler embed agencies
        (seedHandler embed agencies idx).2).2 a._id = 1 := by
  intro a ha
  obtain ⟨vs, hvs, hids⟩ := buildVectorsOk embed agencies hemb
  have hlen : vs.length = agencies.length := by
    have := congrArg List.length hids
    simpa using this
  have hpos : vs.length > 0 := by
    rw [hlen]
    exact List.length_pos.mpr (fun hnil => by simp [hnil] at ha)
  have hstep : ∀ j : List VectorRecord, (seedHandler embed agencies j).2 =
      upsertBatch j vs := by
    intro j
    simp [seedHandler, hvs, hpos]
  rw [hstep, hstep]
  have hmem : ∃ v ∈ vs, v.id = a._id := by
    have : a._id ∈ vs.map (fun v => v.id) := by
      rw [hids]
      exact List.mem_map.mpr ⟨a, ha, rfl⟩
    obtain ⟨v, hv, hvi⟩ := List.mem_map.mp this
    exact ⟨v, hv, hvi⟩
  have hnd2 : (vectorKeys (upsertBatch (upsertBatch idx vs) vs)).Nodup :=
    nodupVectorKeysUpsertBatch vs _ (nodupVectorKeysUpsertBatch vs idx hidx)
  have hmem2 : a._id ∈ vectorKeys (upsertBatch (upsertBatch idx vs) vs) :=
    memVectorKeysUpsertBatch vs _ a._id (Or.inl hmem)
  rw [countIdEqKeysCount]
  exact List.count_eq_one_of_mem hnd2 hmem2

/-- Witness for C7 at a one-entry catalog seeded twice into an empty
index. -/
theorem seed_twice_one_record_per_entry_witness :
    ((vectorKeys []).Nodup) ∧
    (∀ a ∈ [exAgency],
      exceptIsOk ((fun _ => (.ok [7] : Except String (List Int)))
        (textToEmbed a)) = true) ∧
    (∀ a ∈ [exAgency],
      countId (seedHandler (fun _ => .ok [7]) [exAgency]
        (seedHandler (fun _ => .ok [7]) [exAgency] []).2).2 a._id = 1) :=
  ⟨List.nodup_nil, fun _ _ => rfl,
   seed_twice_one_record_per_entry (fun _ => .ok [7]) [exAgency] []
     List.nodup_nil (fun _ _ => rfl)⟩

end Theorems

end LokSeva
